import Mathlib

/-!
Shallow embedding of the Lumine backend's Trust & Anti-Abuse Engine
(src/app/trust.rs, src/app/invites.rs, src/app/rate_limiter.rs,
src/app/fingerprint.rs, src/config/rate_limits.rs,
src/http/middleware/ban.rs), together with theorems settling the
specification claims about it.

Machine integers (`i32`, `u32`) are modelled as `Int` / `Nat`; the values
involved (counters, quotas, points) are small and no arithmetic in the
modelled paths can overflow.  Timestamps are `Int` seconds.  SQL rows are
Lean structures; the database is explicit state threaded through the
operations; a SQL transaction that rolls back is an `Except` error branch
that returns no state.
-/

namespace Lumine

/-- Trust levels (config/rate_limits.rs `TrustLevel`). -/
inductive TrustLevel where
  | New
  | Basic
  | Trusted
  | Verified
deriving DecidableEq

/-- `TrustLevel::from_i32` (config/rate_limits.rs). -/
def TrustLevel.from_i32 (value : Int) : TrustLevel :=
  if value = 0 then .New
  else if value = 1 then .Basic
  else if value = 2 then .Trusted
  else if value = 3 then .Verified
  else .New

/-- `TrustLevel::as_i32` (config/rate_limits.rs). -/
def TrustLevel.as_i32 : TrustLevel → Int
  | .New => 0
  | .Basic => 1
  | .Trusted => 2
  | .Verified => 3

/-- One row of `user_trust_scores` (fields of `TrustScore` in src/app/trust.rs). -/
structure TrustScore where
  trust_level : TrustLevel
  trust_points : Int
  account_age_days : Int
  posts_count : Int
  comments_count : Int
  likes_received_count : Int
  followers_count : Int
  flags_received : Int
  strikes : Int
  banned_until : Option Int
  invites_sent : Int
  successful_invites : Int
deriving DecidableEq

/-- Seconds in a day; `time::Duration::days(d)` is `d * 86400` seconds. -/
def SECONDS_PER_DAY : Int := 86400

/-- The row inserted by `TrustService::initialize_user`
(`trust_level 0, trust_points 0, account_age_days 0`, all other
counters at their schema defaults of zero). -/
def initial_trust_score : TrustScore :=
  { trust_level := .New
    trust_points := 0
    account_age_days := 0
    posts_count := 0
    comments_count := 0
    likes_received_count := 0
    followers_count := 0
    flags_received := 0
    strikes := 0
    banned_until := none
    invites_sent := 0
    successful_invites := 0 }

/-- The pure level rule inside `TrustService::recalculate_trust_level`
(src/app/trust.rs lines 145-153). -/
def recompute_level (age_days posts points flags strikes : Int) : TrustLevel :=
  if strikes ≥ 3 then .New
  else if age_days ≥ 90 ∧ posts ≥ 50 ∧ points ≥ 200 ∧ flags < 3 then .Trusted
  else if age_days ≥ 7 ∧ posts ≥ 5 ∧ points ≥ 20 ∧ flags < 5 then .Basic
  else .New

/-- `TrustService::recalculate_trust_level`: read the metrics, write the
recomputed level back to the row. -/
def recalculate_trust_level (s : TrustScore) : TrustScore :=
  { s with trust_level :=
      (recompute_level s.account_age_days s.posts_count s.trust_points
        s.flags_received s.strikes) }

/-- `TrustService::add_strike` (src/app/trust.rs lines 187-238): increment
strikes and flags, deduct 50 points clamped at 0; at 3+ strikes set an
escalating ban (`3 => 7, 4 => 30, _ => 365` days) and force level to 0;
finally recalculate the level.  Returns the updated row and the returned
strike count. -/
def add_strike (s : TrustScore) (now : Int) : TrustScore × Int :=
  let s1 : TrustScore :=
    { s with
      strikes := s.strikes + 1
      flags_received := s.flags_received + 1
      trust_points := max 0 (s.trust_points - 50) }
  let strikes := s1.strikes
  let s2 : TrustScore :=
    if strikes ≥ 3 then
      let ban_duration_days : Int :=
        if strikes = 3 then 7 else if strikes = 4 then 30 else 365
      { s1 with
        banned_until := some (now + ban_duration_days * SECONDS_PER_DAY)
        trust_level := .New }
    else s1
  (recalculate_trust_level s2, strikes)

/-- `TrustService::record_flag` (src/app/trust.rs lines 241-266): increment
flags, deduct 10 points clamped at 0; then if the new flag count is `≥ 10`
and divisible by 10, add a strike. -/
def record_flag (s : TrustScore) (now : Int) : TrustScore :=
  let s1 : TrustScore :=
    { s with
      flags_received := s.flags_received + 1
      trust_points := max 0 (s.trust_points - 10) }
  let flags := s1.flags_received
  if flags ≥ 10 ∧ flags % 10 = 0 then (add_strike s1 now).1 else s1

/-- The `points_delta` arm of the `match activity_type` in
`TrustService::record_activity` (src/app/trust.rs lines 89-98); a Rust
match on string literals is a chain of equality tests. -/
def activity_points_delta (activity_type : String) : Int :=
  if activity_type = "post_created" then 5
  else if activity_type = "comment_created" then 2
  else if activity_type = "like_received" then 1
  else if activity_type = "follower_gained" then 3
  else if activity_type = "follower_lost" then -1
  else if activity_type = "flag_received" then -10
  else if activity_type = "content_removed" then -25
  else 0

/-- The `field_to_increment` part of the same match: which activity
counter column the dynamic `UPDATE` bumps. -/
def activity_counter_update (activity_type : String) (s1 : TrustScore) : TrustScore :=
  if activity_type = "post_created" then { s1 with posts_count := s1.posts_count + 1 }
  else if activity_type = "comment_created" then { s1 with comments_count := s1.comments_count + 1 }
  else if activity_type = "like_received" then { s1 with likes_received_count := s1.likes_received_count + 1 }
  else if activity_type = "follower_gained" then { s1 with followers_count := s1.followers_count + 1 }
  else s1

/-- `TrustService::record_activity` (src/app/trust.rs lines 88-126):
points delta and counter by activity kind, points clamped at 0, level
recalculated when the delta's magnitude is at least 5. -/
def record_activity (s : TrustScore) (activity_type : String) : TrustScore :=
  let points_delta : Int := activity_points_delta activity_type
  let s1 : TrustScore := { s with trust_points := max 0 (s.trust_points + points_delta) }
  let s2 : TrustScore := activity_counter_update activity_type s1
  if points_delta.natAbs ≥ 5 then recalculate_trust_level s2 else s2

/-- `TrustService::set_trust_level` (admin override). -/
def set_trust_level (s : TrustScore) (level : TrustLevel) : TrustScore :=
  { s with trust_level := level }

/-- `TrustService::is_banned` (src/app/trust.rs lines 169-184).  The
argument is the outcome of the `fetch_optional` on `user_trust_scores`:
an infrastructure error, or the optional row. -/
def is_banned (fetched : Except Unit (Option TrustScore)) (now : Int) :
    Except Unit Bool :=
  match fetched with
  | .error e => .error e
  | .ok row =>
    .ok (match row with
      | some s =>
        match s.banned_until with
        | some banned_until => decide (banned_until > now)
        | none => false
      | none => false)

/-- Outcome of the ban middleware. -/
inductive GateOutcome where
  | proceed
  | forbidden
  | internalError
deriving DecidableEq

/-- `ban_check_middleware` (src/http/middleware/ban.rs): unauthenticated
requests pass through; otherwise a failing `is_banned` becomes an internal
error, a banned user is forbidden, and everyone else proceeds. -/
def ban_check_middleware (auth : Option Nat)
    (fetch : Nat → Except Unit (Option TrustScore)) (now : Int) : GateOutcome :=
  match auth with
  | none => .proceed
  | some u =>
    match is_banned (fetch u) now with
    | .error _ => .internalError
    | .ok true => .forbidden
    | .ok false => .proceed

/-- One row of `invite_codes` (fields read and written by
src/app/invites.rs).  `created_at` and `invite_type` play no role in any
modelled operation and are omitted. -/
structure InviteCodeRow where
  code : String
  created_by : Nat
  used_by : Option Nat
  used_at : Option Int
  expires_at : Int
  is_valid : Bool
  use_count : Int
  max_uses : Int
deriving DecidableEq

/-- The engine's durable state: the `invite_codes` table keyed by code,
the `user_trust_scores` table keyed by user id, and the append-only
`invite_relationships` table. -/
structure EngineState where
  codes : String → Option InviteCodeRow
  scores : Nat → Option TrustScore
  relationships : List (Nat × Nat × String)

/-- The invite quota by trust level (`match trust_level` in
`InviteService::create_invite`, src/app/invites.rs lines 64-70: `0 => 3,
1 => 10, 2 => 50, 3 => 200, _ => 3`; the stored `i32` is produced by
`TrustLevel::as_i32`, and every value outside `0..=3` falls to the same 3
as `TrustLevel::from_i32` falls to `New`). -/
def max_invites_for : TrustLevel → Int
  | .New => 3
  | .Basic => 10
  | .Trusted => 50
  | .Verified => 200

/-- Failure modes of `create_invite` (the `anyhow!` messages in
src/app/invites.rs); the quota failure carries the numeric quota that the
message interpolates. -/
inductive CreateInviteError where
  | userTrustScoreNotFound
  | maxInviteLimitReached (max_invites : Int)
  | codeGenerationFailed
deriving DecidableEq

/-- `InviteService::generate_unique_code`: up to 10 random candidates are
drawn and the first one not already present in `invite_codes` is kept;
the candidate stream is a parameter of the model. -/
def generate_unique_code (st : EngineState) (candidates : List String) :
    Option String :=
  (candidates.take 10).find? (fun c => (st.codes c).isNone)

/-- `InviteService::create_invite` (src/app/invites.rs lines 39-122):
quota check against the trust-level table, then code generation, then the
row insert (schema defaults `use_count 0, max_uses 1, is_valid true`, as
echoed by the returned `InviteCode` value) and the `invites_sent`
increment. -/
def create_invite (st : EngineState) (user_id : Nat) (days_valid : Int)
    (now : Int) (candidates : List String) :
    Except CreateInviteError (InviteCodeRow × EngineState) :=
  match st.scores user_id with
  | none => .error .userTrustScoreNotFound
  | some sc =>
    let max_invites := max_invites_for sc.trust_level
    if sc.invites_sent ≥ max_invites then
      .error (.maxInviteLimitReached max_invites)
    else
      match generate_unique_code st candidates with
      | none => .error .codeGenerationFailed
      | some code =>
        let row : InviteCodeRow :=
          { code := code
            created_by := user_id
            used_by := none
            used_at := none
            expires_at := now + days_valid * SECONDS_PER_DAY
            is_valid := true
            use_count := 0
            max_uses := 1 }
        let st1 : EngineState :=
          { st with
            codes := fun c => if c = code then some row else st.codes c
            scores := fun u =>
              if u = user_id then
                some { sc with invites_sent := sc.invites_sent + 1 }
              else st.scores u }
        .ok (row, st1)

/-- Failure modes of `consume_invite` (the `anyhow!` messages in
src/app/invites.rs lines 166-185). -/
inductive ConsumeInviteError where
  | invalidInviteCode
  | revoked
  | expired
  | fullyUsed
deriving DecidableEq

/-- `InviteService::consume_invite` (src/app/invites.rs lines 152-235):
inside one transaction, fetch the locked row, run the three validity
checks, then mark the use (flipping `is_valid` off when `use_count + 1`
reaches `max_uses`), record the relationship edge, and reward the
inviter.  An error branch is a rollback: no state escapes it. -/
def consume_invite (st : EngineState) (code : String) (new_user_id : Nat)
    (now : Int) : Except ConsumeInviteError (Nat × EngineState) :=
  match st.codes code with
  | none => .error .invalidInviteCode
  | some row =>
    if ¬ row.is_valid then .error .revoked
    else if row.expires_at < now then .error .expired
    else if row.use_count ≥ row.max_uses then .error .fullyUsed
    else
      let is_fully_used : Bool := decide (row.use_count + 1 ≥ row.max_uses)
      let row' : InviteCodeRow :=
        { row with
          used_by := some new_user_id
          used_at := some now
          use_count := row.use_count + 1
          is_valid := !is_fully_used }
      let st1 : EngineState :=
        { st with
          codes := fun c => if c = code then some row' else st.codes c
          relationships := st.relationships ++ [(row.created_by, new_user_id, code)]
          scores := fun u =>
            if u = row.created_by then
              match st.scores u with
              | some sc =>
                some { sc with
                       successful_invites := sc.successful_invites + 1
                       trust_points := sc.trust_points + 10 }
              | none => none
            else st.scores u }
      .ok (row.created_by, st1)

/-- `InviteService::revoke_invite`: flip `is_valid` off when the code
exists, belongs to the caller and is still valid; report whether a row
was affected. -/
def revoke_invite (st : EngineState) (code : String) (user_id : Nat) :
    Bool × EngineState :=
  match st.codes code with
  | none => (false, st)
  | some row =>
    if row.created_by = user_id ∧ row.is_valid then
      (true,
        { st with
          codes := fun c =>
            if c = code then some { row with is_valid := false } else st.codes c })
    else (false, st)

/-- The engine operations of the claims: invite creation and consumption,
activity recording, strikes, flags, level recomputation, and admin level
changes, all acting on the durable state. -/
inductive EngineOp where
  | createInvite (days_valid now : Int) (candidates : List String)
  | consumeInvite (code : String) (new_user_id : Nat) (now : Int)
  | recordActivity (activity_type : String)
  | addStrike (now : Int)
  | recordFlag (now : Int)
  | recalcLevel
  | setTrustLevel (level : TrustLevel)

/-- Apply an update to one user's trust row (an `UPDATE ... WHERE
user_id = $1` touches nothing when the row is absent). -/
def updateScore (st : EngineState) (u : Nat) (f : TrustScore → TrustScore) :
    EngineState :=
  { st with scores := fun v => if v = u then (st.scores v).map f else st.scores v }

/-- One engine step by user `u`; a failed operation leaves the durable
state unchanged (the error paths run no update, or roll back). -/
def engine_step (st : EngineState) (u : Nat) : EngineOp → EngineState
  | .createInvite days_valid now candidates =>
    match create_invite st u days_valid now candidates with
    | .ok (_, st') => st'
    | .error _ => st
  | .consumeInvite code new_user_id now =>
    match consume_invite st code new_user_id now with
    | .ok (_, st') => st'
    | .error _ => st
  | .recordActivity activity_type => updateScore st u (record_activity · activity_type)
  | .addStrike now => updateScore st u (fun s => (add_strike s now).1)
  | .recordFlag now => updateScore st u (record_flag · now)
  | .recalcLevel => updateScore st u recalculate_trust_level
  | .setTrustLevel level => updateScore st u (set_trust_level · level)

/-- Run a sequence of engine operations by user `u`. -/
def engine_run (st : EngineState) (u : Nat) (ops : List EngineOp) : EngineState :=
  ops.foldl (fun s op => engine_step s u op) st

/-- The state after `initialize_user u` on an empty database. -/
def init_state (u : Nat) : EngineState :=
  { codes := fun _ => none
    scores := fun v => if v = u then some initial_trust_score else none
    relationships := [] }

/-- `RateWindow` (config/rate_limits.rs). -/
inductive RateWindow where
  | Hour
  | Day
deriving DecidableEq

/-- `RateWindow::seconds`. -/
def RateWindow.seconds : RateWindow → Nat
  | .Hour => 3600
  | .Day => 86400

/-- `RateLimits` (config/rate_limits.rs declares the first eight fields;
the last five are read by `RateLimiter::check_rate_limit` but absent from
the struct declaration in src, so they are modelled from the spec's
"static table indexed by trust level" as unconstrained per-level quotas,
and the theorems quantify over them). -/
structure RateLimits where
  posts_per_hour : Nat
  posts_per_day : Nat
  follows_per_hour : Nat
  follows_per_day : Nat
  unfollows_per_day : Nat
  likes_per_hour : Nat
  comments_per_hour : Nat
  login_attempts_per_hour : Nat
  feed_requests_per_hour : Nat
  notifications_per_hour : Nat
  search_requests_per_hour : Nat
  media_requests_per_hour : Nat
  moderation_actions_per_hour : Nat
deriving DecidableEq

/-- `RateLimitInfo` (src/app/rate_limiter.rs). -/
structure RateLimitInfo where
  limited : Bool
  limit : Nat
  remaining : Nat
deriving DecidableEq

/-- The outcome of one `redis` value read at a counter key: an integer
value, a missing key (`nil`), or a failed read. -/
inductive CacheVal where
  | val (n : Nat)
  | nil
  | err
deriving DecidableEq

/-- `conn.get(&key).await.unwrap_or(0)`: a missing key fails the `u32`
conversion and a failed read is an `Err`, and `unwrap_or(0)` maps both to
0. -/
def CacheVal.unwrap_or_zero : CacheVal → Nat
  | .val n => n
  | .nil => 0
  | .err => 0

/-- `u32::MAX`, the initial `min_remaining` of the check loop. -/
def U32_MAX : Nat := 4294967295

/-- The `checks` list built by the `match action` in
`RateLimiter::check_rate_limit` (src/app/rate_limiter.rs lines 34-53);
`none` is the unrecognized-action early return. -/
def rate_limit_checks (limits : RateLimits) (action : String) :
    Option (List (Nat × RateWindow)) :=
  if action = "post" then some [(limits.posts_per_hour, .Hour), (limits.posts_per_day, .Day)]
  else if action = "follow" then some [(limits.follows_per_hour, .Hour), (limits.follows_per_day, .Day)]
  else if action = "unfollow" then some [(limits.unfollows_per_day, .Day)]
  else if action = "like" then some [(limits.likes_per_hour, .Hour)]
  else if action = "comment" then some [(limits.comments_per_hour, .Hour)]
  else if action = "login" then some [(limits.login_attempts_per_hour, .Hour)]
  else if action = "feed" then some [(limits.feed_requests_per_hour, .Hour)]
  else if action = "notifications" then some [(limits.notifications_per_hour, .Hour)]
  else if action = "search" then some [(limits.search_requests_per_hour, .Hour)]
  else if action = "media" then some [(limits.media_requests_per_hour, .Hour)]
  else if action = "moderation" then some [(limits.moderation_actions_per_hour, .Hour)]
  else none

/-- The window loop of `check_rate_limit` (src/app/rate_limiter.rs lines
62-96): per window, read the count with `unwrap_or(0)`, saturating-sub it
from the quota, track the tightest remaining/limit pair, and return
limited as soon as one window's count reaches its quota. -/
def check_windows (reads : RateWindow → CacheVal) :
    List (Nat × RateWindow) → Nat → Nat → RateLimitInfo
  | [], min_remaining, effective_limit =>
    { limited := false, limit := effective_limit, remaining := min_remaining }
  | (limit, window) :: rest, min_remaining, effective_limit =>
    let count := (reads window).unwrap_or_zero
    let remaining := limit - count
    let min_remaining' := if remaining < min_remaining then remaining else min_remaining
    let effective_limit' := if remaining < min_remaining then limit else effective_limit
    if count ≥ limit then { limited := true, limit := limit, remaining := 0 }
    else check_windows reads rest min_remaining' effective_limit'

/-- `RateLimiter::check_rate_limit`: the unrecognized-action early return
happens before the connection is acquired; a failed connection
acquisition (`get_multiplexed_async_connection().await?`) propagates;
otherwise the window loop runs from `(u32::MAX, 0)`. -/
def check_rate_limit_with (checks : Option (List (Nat × RateWindow)))
    (conn : Except Unit (RateWindow → CacheVal)) : Except Unit RateLimitInfo :=
  match checks with
  | none => .ok { limited := false, limit := 0, remaining := 0 }
  | some checks =>
    match conn with
    | .error e => .error e
    | .ok reads => .ok (check_windows reads checks U32_MAX 0)

def check_rate_limit (limits : RateLimits) (action : String)
    (conn : Except Unit (RateWindow → CacheVal)) : Except Unit RateLimitInfo :=
  check_rate_limit_with (rate_limit_checks limits action) conn

/-- The `windows` list of `RateLimiter::increment` (src/app/rate_limiter.rs
lines 105-112). -/
def increment_windows (action : String) : Option (List RateWindow) :=
  if action = "post" then some [.Hour, .Day]
  else if action = "follow" then some [.Hour, .Day]
  else if action = "unfollow" then some [.Day]
  else if action = "like" ∨ action = "comment" ∨ action = "login" then some [.Hour]
  else if action = "feed" ∨ action = "notifications" ∨ action = "search" ∨
      action = "media" ∨ action = "moderation" then some [.Hour]
  else none

/-- A live cache connection as `increment` uses it: per-window read
outcome, `INCR` outcome and `EXPIRE` outcome. -/
structure IncrConn where
  reads : RateWindow → CacheVal
  incr : RateWindow → Except Unit Unit
  expire : RateWindow → Except Unit Unit

/-- The per-window body of `RateLimiter::increment`: read with
`unwrap_or(0)`, then `incr` with `?`, then `expire` with `?` when the
pre-increment read showed zero. -/
def increment_go (c : IncrConn) : List RateWindow → Except Unit Unit
  | [] => .ok ()
  | window :: rest =>
    match c.incr window with
    | .error e => .error e
    | .ok _ =>
      match (if (c.reads window).unwrap_or_zero = 0 then c.expire window else .ok ()) with
      | .error e => .error e
      | .ok _ => increment_go c rest

/-- `RateLimiter::increment` (src/app/rate_limiter.rs lines 100-138):
unknown actions are skipped before the connection is acquired; a failed
connection propagates; command failures inside the loop propagate. -/
def increment (action : String) (conn : Except Unit IncrConn) : Except Unit Unit :=
  match increment_windows action with
  | none => .ok ()
  | some windows =>
    match conn with
    | .error e => .error e
    | .ok c => increment_go c windows

/-- `RateLimiter::check_ip_rate_limit` (src/app/rate_limiter.rs lines
172-198): one key, read with `unwrap_or(0)`, limited when the count
reaches the limit. -/
def check_ip_rate_limit (limit : Nat) (conn : Except Unit CacheVal) :
    Except Unit Bool :=
  match conn with
  | .error e => .error e
  | .ok read => .ok (decide (read.unwrap_or_zero ≥ limit))

/-- `RateLimiter::increment_ip` (src/app/rate_limiter.rs lines 201-215):
one key, read with `unwrap_or(0)`, `incr` with `?`, `expire` with `?`
when the read showed zero. -/
def increment_ip (conn : Except Unit (CacheVal × Except Unit Unit × Except Unit Unit)) :
    Except Unit Unit :=
  match conn with
  | .error e => .error e
  | .ok (read, incr_res, expire_res) =>
    match incr_res with
    | .error e => .error e
    | .ok _ =>
      match (if read.unwrap_or_zero = 0 then expire_res else .ok ()) with
      | .error e => .error e
      | .ok _ => .ok ()

/-- One row of `device_fingerprints` (the fields read and written by
src/app/fingerprint.rs). -/
structure DeviceRow where
  user_ids : List Nat
  account_count : Int
  risk_score : Int
  is_blocked : Bool
deriving DecidableEq

/-- The `match account_count` risk step in
`FingerprintService::register_fingerprint` (src/app/fingerprint.rs lines
76-81): Rust range patterns `0..=2 => 5, 3..=5 => 15, 6..=10 => 30,
_ => 50`. -/
def risk_increase_for (account_count : Int) : Int :=
  if 0 ≤ account_count ∧ account_count ≤ 2 then 5
  else if 3 ≤ account_count ∧ account_count ≤ 5 then 15
  else if 6 ≤ account_count ∧ account_count ≤ 10 then 30
  else 50

/-- `FingerprintService::register_fingerprint` (src/app/fingerprint.rs
lines 36-208), as the function from the existing row (if any) and the
optional authenticated user to the stored row afterwards.  A blocked
device short-circuits with no mutation; a known `(device, user)` pair
only refreshes `last_seen_at`; a new user appended to a known device
bumps `account_count` to the new list length and raises `risk_score` by
the bracket step, clamped at 100. -/
def register_fingerprint (existing : Option DeviceRow) (user_id : Option Nat) :
    DeviceRow :=
  match existing with
  | some row =>
    if row.is_blocked then row
    else
      match user_id with
      | some uid =>
        if uid ∈ row.user_ids then row
        else
          let user_ids := row.user_ids ++ [uid]
          let risk_increase := risk_increase_for row.account_count
          { row with
            user_ids := user_ids
            account_count := (user_ids.length : Int)
            risk_score := min (row.risk_score + risk_increase) 100 }
      | none => row
  | none =>
    match user_id with
    | some uid =>
      { user_ids := [uid], account_count := 1, risk_score := 0, is_blocked := false }
    | none =>
      { user_ids := [], account_count := 0, risk_score := 0, is_blocked := false }

section TrustTheorems

/-- Helper: `add_strike` returns the incremented strike count. -/
theorem add_strike_snd (s : TrustScore) (now : Int) :
    (add_strike s now).2 = s.strikes + 1 := by
  simp only [add_strike]

/-- Helper: the row after `add_strike` carries the incremented strike count. -/
theorem add_strike_strikes (s : TrustScore) (now : Int) :
    ((add_strike s now).1).strikes = s.strikes + 1 := by
  simp only [add_strike, recalculate_trust_level]
  split_ifs <;> rfl

/-- Helper: the row after `add_strike` carries the incremented flag count. -/
theorem add_strike_flags (s : TrustScore) (now : Int) :
    ((add_strike s now).1).flags_received = s.flags_received + 1 := by
  simp only [add_strike, recalculate_trust_level]
  split_ifs <;> rfl

/-- Helper: the row after `add_strike` carries the clamped point deduction. -/
theorem add_strike_points (s : TrustScore) (now : Int) :
    ((add_strike s now).1).trust_points = max 0 (s.trust_points - 50) := by
  simp only [add_strike, recalculate_trust_level]
  split_ifs <;> rfl

/-- Helper: with at least three resulting strikes, `add_strike` sets the
escalating ban and leaves the level at `New`. -/
theorem add_strike_ban (s : TrustScore) (now : Int) (h : s.strikes + 1 ≥ 3) :
    ((add_strike s now).1).banned_until =
      some (now +
        (if s.strikes + 1 = 3 then 7 else if s.strikes + 1 = 4 then 30 else 365) *
          SECONDS_PER_DAY)
    ∧ ((add_strike s now).1).trust_level = .New := by
  simp only [add_strike, recalculate_trust_level, recompute_level]
  split_ifs <;> simp_all <;> omega

/-- Helper: with at most two resulting strikes, `add_strike` sets no ban. -/
theorem add_strike_no_ban (s : TrustScore) (now : Int) (h : s.strikes + 1 ≤ 2) :
    ((add_strike s now).1).banned_until = s.banned_until := by
  simp only [add_strike, recalculate_trust_level]
  split_ifs <;> first | rfl | omega

/-- Claim C4: `recompute_level` is a pure, deterministic, idempotent
function of (account age, posts, points, flags, strikes), evaluated
first-match-wins: 3+ strikes force `New`; otherwise age ≥ 90, posts ≥ 50,
points ≥ 200 and flags < 3 give `Trusted`; otherwise age ≥ 7, posts ≥ 5,
points ≥ 20 and flags < 5 give `Basic`; otherwise `New` — and `Verified`
is never produced. -/
theorem claim_C4_recompute_level (age_days posts points flags strikes : Int) :
    (strikes ≥ 3 → recompute_level age_days posts points flags strikes = .New)
    ∧ (strikes < 3 → age_days ≥ 90 ∧ posts ≥ 50 ∧ points ≥ 200 ∧ flags < 3 →
        recompute_level age_days posts points flags strikes = .Trusted)
    ∧ (strikes < 3 → ¬(age_days ≥ 90 ∧ posts ≥ 50 ∧ points ≥ 200 ∧ flags < 3) →
        age_days ≥ 7 ∧ posts ≥ 5 ∧ points ≥ 20 ∧ flags < 5 →
        recompute_level age_days posts points flags strikes = .Basic)
    ∧ (strikes < 3 → ¬(age_days ≥ 90 ∧ posts ≥ 50 ∧ points ≥ 200 ∧ flags < 3) →
        ¬(age_days ≥ 7 ∧ posts ≥ 5 ∧ points ≥ 20 ∧ flags < 5) →
        recompute_level age_days posts points flags strikes = .New)
    ∧ recompute_level age_days posts points flags strikes ≠ .Verified
    ∧ (∀ s : TrustScore,
        recalculate_trust_level (recalculate_trust_level s) = recalculate_trust_level s) := by
  refine ⟨?_, ?_, ?_, ?_, ?_, ?_⟩
  · intro h; unfold recompute_level; split_ifs <;> first | rfl | omega
  · intro h h'; unfold recompute_level; split_ifs <;> first | rfl | omega | tauto
  · intro h h' h''; unfold recompute_level; split_ifs <;> first | rfl | omega | tauto
  · intro h h' h''; unfold recompute_level; split_ifs <;> first | rfl | omega | tauto
  · unfold recompute_level; split_ifs <;> simp
  · intro s; unfold recalculate_trust_level; rfl

/-- Witness for C4 at concrete inputs: a clean 100-day account with 60
posts and 250 points is `Trusted`. -/
theorem claim_C4_witness :
    recompute_level 100 60 250 0 0 = .Trusted :=
  (claim_C4_recompute_level 100 60 250 0 0).2.1 (by decide) (by decide)

/-- Claim C5: `add_strike` increments strikes and flags by 1 and deducts
50 trust points floor-clamped at 0; a resulting strike count of 3, 4, or
5 imposes a ban of exactly 7, 30, or 365 days (365 for every count above
5) and force-resets the level to `New`; a resulting count of 2 or less
sets no ban. -/
theorem claim_C5_add_strike (s : TrustScore) (now : Int) :
    (add_strike s now).2 = s.strikes + 1
    ∧ ((add_strike s now).1).strikes = s.strikes + 1
    ∧ ((add_strike s now).1).flags_received = s.flags_received + 1
    ∧ ((add_strike s now).1).trust_points = max 0 (s.trust_points - 50)
    ∧ (s.strikes + 1 = 3 →
        ((add_strike s now).1).banned_until = some (now + 7 * SECONDS_PER_DAY)
        ∧ ((add_strike s now).1).trust_level = .New)
    ∧ (s.strikes + 1 = 4 →
        ((add_strike s now).1).banned_until = some (now + 30 * SECONDS_PER_DAY)
        ∧ ((add_strike s now).1).trust_level = .New)
    ∧ (s.strikes + 1 ≥ 5 →
        ((add_strike s now).1).banned_until = some (now + 365 * SECONDS_PER_DAY)
        ∧ ((add_strike s now).1).trust_level = .New)
    ∧ (s.strikes + 1 ≤ 2 →
        ((add_strike s now).1).banned_until = s.banned_until) := by
  refine ⟨add_strike_snd s now, add_strike_strikes s now, add_strike_flags s now,
    add_strike_points s now, ?_, ?_, ?_, add_strike_no_ban s now⟩
  · intro h
    have := add_strike_ban s now (by omega)
    rw [if_pos h] at this
    exact this
  · intro h
    have := add_strike_ban s now (by omega)
    rw [if_neg (by omega), if_pos h] at this
    exact this
  · intro h
    have := add_strike_ban s now (by omega)
    rw [if_neg (by omega), if_neg (by omega)] at this
    exact this

/-- Witness for C5 at a concrete row: a user on their third strike gets
the 7-day ban and is reset to `New`. -/
theorem claim_C5_witness :
    (add_strike { initial_trust_score with strikes := 2 } 1000).1.banned_until =
      some (1000 + 7 * SECONDS_PER_DAY)
    ∧ (add_strike { initial_trust_score with strikes := 2 } 1000).1.trust_level = .New :=
  (claim_C5_add_strike { initial_trust_score with strikes := 2 } 1000).2.2.2.2.1 (by decide)

/-- Claim C7: `record_flag` increments `flags_received` by 1 and deducts
10 trust points floor-clamped at 0, and exactly when the resulting flag
count is a positive multiple of 10 it additionally runs `add_strike` on
that intermediate row (so the strike count rises by 1); otherwise no
strike is added. -/
theorem claim_C7_record_flag (s : TrustScore) (now : Int) :
    ((∃ k : Int, 0 < k ∧ s.flags_received + 1 = 10 * k) →
      record_flag s now =
        (add_strike
          { s with
            flags_received := s.flags_received + 1
            trust_points := max 0 (s.trust_points - 10) } now).1
      ∧ (record_flag s now).strikes = s.strikes + 1)
    ∧ (¬(∃ k : Int, 0 < k ∧ s.flags_received + 1 = 10 * k) →
      record_flag s now =
        { s with
          flags_received := s.flags_received + 1
          trust_points := max 0 (s.trust_points - 10) }
      ∧ (record_flag s now).strikes = s.strikes) := by
  constructor
  · rintro ⟨k, hk, heq⟩
    have hcond : s.flags_received + 1 ≥ 10 ∧ (s.flags_received + 1) % 10 = 0 := by
      refine ⟨by omega, by omega⟩
    have hrw : record_flag s now =
        (add_strike
          { s with
            flags_received := s.flags_received + 1
            trust_points := max 0 (s.trust_points - 10) } now).1 := by
      unfold record_flag
      rw [if_pos hcond]
    refine ⟨hrw, ?_⟩
    rw [hrw, add_strike_strikes]
  · intro hnot
    have hcond : ¬(s.flags_received + 1 ≥ 10 ∧ (s.flags_received + 1) % 10 = 0) := by
      intro ⟨h10, hmod⟩
      exact hnot ⟨(s.flags_received + 1) / 10, by omega, by omega⟩
    have hrw : record_flag s now =
        { s with
          flags_received := s.flags_received + 1
          trust_points := max 0 (s.trust_points - 10) } := by
      unfold record_flag
      rw [if_neg hcond]
    exact ⟨hrw, by rw [hrw]⟩

/-- Witness for C7 at a concrete row: the 10th flag triggers a strike,
the 9th does not. -/
theorem claim_C7_witness :
    (record_flag { initial_trust_score with flags_received := 9 } 0).strikes = 1
    ∧ (record_flag { initial_trust_score with flags_received := 8 } 0).strikes = 0 :=
  ⟨((claim_C7_record_flag { initial_trust_score with flags_received := 9 } 0).1
      ⟨1, by decide, by decide⟩).2,
    ((claim_C7_record_flag { initial_trust_score with flags_received := 8 } 0).2
      (by rintro ⟨k, hk, heq⟩; simp [initial_trust_score] at heq; omega)).2⟩

/-- Claim C10: for a user with no trust-score row, a row without a
`banned_until` timestamp, or a `banned_until` in the past, `is_banned`
returns the successful value `false` (never an error), and the ban gate
lets the request proceed. -/
theorem claim_C10_is_banned (u : Nat) (now : Int)
    (fetch : Nat → Except Unit (Option TrustScore)) :
    (fetch u = .ok none →
      is_banned (fetch u) now = .ok false
      ∧ ban_check_middleware (some u) fetch now = .proceed)
    ∧ (∀ s : TrustScore, fetch u = .ok (some s) → s.banned_until = none →
      is_banned (fetch u) now = .ok false
      ∧ ban_check_middleware (some u) fetch now = .proceed)
    ∧ (∀ (s : TrustScore) (b : Int), fetch u = .ok (some s) →
      s.banned_until = some b → b < now →
      is_banned (fetch u) now = .ok false
      ∧ ban_check_middleware (some u) fetch now = .proceed) := by
  refine ⟨?_, ?_, ?_⟩
  · intro h
    have hb : is_banned (fetch u) now = .ok false := by
      rw [h]; rfl
    exact ⟨hb, by simp [ban_check_middleware, hb]⟩
  · intro s h hnone
    have hb : is_banned (fetch u) now = .ok false := by
      rw [h]; simp [is_banned, hnone]
    exact ⟨hb, by simp [ban_check_middleware, hb]⟩
  · intro s b h hsome hlt
    have hb : is_banned (fetch u) now = .ok false := by
      rw [h]; simp [is_banned, hsome]; omega
    exact ⟨hb, by simp [ban_check_middleware, hb]⟩

/-- Witness for C10 at a concrete fetch: no row, and a row with an
expired ban, both pass the gate. -/
theorem claim_C10_witness :
    (is_banned ((fun _ => .ok none : Nat → Except Unit (Option TrustScore)) 7) 50 = .ok false
      ∧ ban_check_middleware (some 7) (fun _ => .ok none) 50 = .proceed)
    ∧ (is_banned
        ((fun _ => .ok (some { initial_trust_score with banned_until := some 10 }) :
          Nat → Except Unit (Option TrustScore)) 7) 50 = .ok false
      ∧ ban_check_middleware (some 7)
          (fun _ => .ok (some { initial_trust_score with banned_until := some 10 }))
          50 = .proceed) :=
  ⟨(claim_C10_is_banned 7 50 (fun _ => .ok none)).1 rfl,
   (claim_C10_is_banned 7 50
       (fun _ => .ok (some { initial_trust_score with banned_until := some 10 }))).2.2
     { initial_trust_score with banned_until := some 10 } 10 rfl rfl (by decide)⟩

end TrustTheorems

section InviteTheorems

/-- Helper: everything a successful `create_invite` did. -/
theorem create_invite_ok (st : EngineState) (u : Nat) (days_valid now : Int)
    (cands : List String) (row : InviteCodeRow) (st' : EngineState)
    (h : create_invite st u days_valid now cands = .ok (row, st')) :
    ∃ sc : TrustScore, st.scores u = some sc
      ∧ sc.invites_sent < max_invites_for sc.trust_level
      ∧ st'.scores u = some { sc with invites_sent := sc.invites_sent + 1 }
      ∧ (∀ v, v ≠ u → st'.scores v = st.scores v)
      ∧ st'.codes row.code = some row
      ∧ (∀ c, c ≠ row.code → st'.codes c = st.codes c)
      ∧ st.codes row.code = none
      ∧ st'.relationships = st.relationships
      ∧ row.created_by = u ∧ row.use_count = 0 ∧ row.max_uses = 1
      ∧ row.is_valid = true := by
  cases hsc : st.scores u with
  | none => simp [create_invite, hsc] at h
  | some sc =>
    simp only [create_invite, hsc] at h
    split_ifs at h with hq
    cases hgen : generate_unique_code st cands with
    | none => simp [hgen] at h
    | some code =>
      simp only [hgen, Except.ok.injEq, Prod.mk.injEq] at h
      obtain ⟨hrow, hst⟩ := h
      have hfresh : st.codes code = none := by
        have hp := List.find?_some hgen
        simpa [Option.isNone_iff_eq_none] using hp
      subst hst
      refine ⟨sc, rfl, by omega, ?_, ?_, ?_, ?_, ?_, ?_, ?_, ?_, ?_, ?_⟩ <;>
        simp_all [hrow.symm]

/-- Helper: everything a successful `consume_invite` did. -/
theorem consume_invite_ok (st : EngineState) (code : String) (nu : Nat)
    (now : Int) (inviter : Nat) (st' : EngineState)
    (h : consume_invite st code nu now = .ok (inviter, st')) :
    ∃ row : InviteCodeRow, st.codes code = some row
      ∧ row.is_valid = true ∧ ¬ row.expires_at < now
      ∧ row.use_count < row.max_uses
      ∧ inviter = row.created_by
      ∧ st'.codes code =
          some { row with
                 used_by := some nu
                 used_at := some now
                 use_count := row.use_count + 1
                 is_valid := !decide (row.use_count + 1 ≥ row.max_uses) }
      ∧ (∀ c, c ≠ code → st'.codes c = st.codes c)
      ∧ st'.relationships = st.relationships ++ [(row.created_by, nu, code)]
      ∧ (∀ sc : TrustScore, st.scores row.created_by = some sc →
          st'.scores row.created_by =
            some { sc with
                   successful_invites := sc.successful_invites + 1
                   trust_points := sc.trust_points + 10 })
      ∧ (∀ v, v ≠ row.created_by → st'.scores v = st.scores v)
      ∧ (st.scores row.created_by = none → st'.scores row.created_by = none) := by
  cases hrow : st.codes code with
  | none => simp [consume_invite, hrow] at h
  | some row =>
    simp only [consume_invite, hrow] at h
    split_ifs at h with h1 h2 h3
    simp only [Except.ok.injEq, Prod.mk.injEq] at h
    obtain ⟨hinv, hst⟩ := h
    subst hst
    refine ⟨row, rfl, by simpa using h1, h2, by omega, hinv.symm,
      ?_, ?_, ?_, ?_, ?_, ?_⟩ <;> simp_all

/-- Claim C1: `consume_invite` succeeds exactly when the code row exists,
is valid, is unexpired and has `use_count < max_uses`; on success, within
the one transaction, it increments `use_count`, flips `is_valid` off
exactly when the new count reaches `max_uses`, appends one relationship
edge, and gives the inviter +1 `successful_invites` and +10
`trust_points`; on failure nothing changes; `use_count ≤ max_uses` is
preserved in every outcome. -/
theorem claim_C1_consume_invite (st : EngineState) (code : String)
    (new_user_id : Nat) (now : Int) :
    (st.codes code = none →
      consume_invite st code new_user_id now = .error .invalidInviteCode)
    ∧ (∀ row : InviteCodeRow, st.codes code = some row →
        ((∃ inviter st', consume_invite st code new_user_id now = .ok (inviter, st')) ↔
          (row.is_valid = true ∧ ¬ row.expires_at < now ∧ row.use_count < row.max_uses)))
    ∧ (∀ (row : InviteCodeRow) (inviter : Nat) (st' : EngineState),
        st.codes code = some row →
        consume_invite st code new_user_id now = .ok (inviter, st') →
        inviter = row.created_by
        ∧ (∃ row' : InviteCodeRow, st'.codes code = some row'
            ∧ row'.use_count = row.use_count + 1
            ∧ row'.max_uses = row.max_uses
            ∧ (row'.is_valid = false ↔ row.use_count + 1 = row.max_uses))
        ∧ st'.relationships = st.relationships ++ [(row.created_by, new_user_id, code)]
        ∧ (∀ sc : TrustScore, st.scores row.created_by = some sc →
            st'.scores row.created_by =
              some { sc with
                     successful_invites := sc.successful_invites + 1
                     trust_points := sc.trust_points + 10 }))
    ∧ (∀ e, consume_invite st code new_user_id now = .error e →
        ∀ u, engine_step st u (.consumeInvite code new_user_id now) = st)
    ∧ ((∀ c r, st.codes c = some r → r.use_count ≤ r.max_uses) →
        ∀ u c r,
          (engine_step st u (.consumeInvite code new_user_id now)).codes c = some r →
          r.use_count ≤ r.max_uses) := by
  refine ⟨?_, ?_, ?_, ?_, ?_⟩
  · intro h
    simp [consume_invite, h]
  · intro row hrow
    constructor
    · rintro ⟨inviter, st', hok⟩
      obtain ⟨row', hrow', hv, hexp, hcnt, -, -⟩ :=
        consume_invite_ok st code new_user_id now inviter st' hok
      rw [hrow] at hrow'
      cases hrow'
      exact ⟨hv, hexp, hcnt⟩
    · rintro ⟨hv, hexp, hcnt⟩
      simp only [consume_invite, hrow]
      rw [if_neg (by simp [hv]), if_neg hexp, if_neg (by omega)]
      exact ⟨_, _, rfl⟩
  · intro row inviter st' hrow hok
    obtain ⟨row', hrow', hv, hexp, hcnt, hinv, hcode, hother, hrel, hsc, hsc', -⟩ :=
      consume_invite_ok st code new_user_id now inviter st' hok
    rw [hrow] at hrow'
    cases hrow'
    refine ⟨hinv, ⟨_, hcode, by simp, by simp, ?_⟩, hrel, hsc⟩
    simp only [Bool.not_eq_true', Bool.not_eq_false']
    constructor
    · intro hdec
      have : row.use_count + 1 ≥ row.max_uses := by
        simpa using hdec
      omega
    · intro heq
      simp [ge_iff_le, heq]
  · intro e herr u
    simp only [engine_step]
    rw [herr]
  · intro hpre u c r hget
    simp only [engine_step] at hget
    cases hcons : consume_invite st code new_user_id now with
    | error e =>
      rw [hcons] at hget
      exact hpre c r hget
    | ok p =>
      rw [hcons] at hget
      obtain ⟨row, hrow, hv, hexp, hcnt, hinv, hcode, hother, -, -, -, -⟩ :=
        consume_invite_ok st code new_user_id now p.1 p.2 (by rw [hcons])
      by_cases hc : c = code
      · subst hc
        rw [hcode] at hget
        cases hget
        simp only
        omega
      · rw [hother c hc] at hget
        exact hpre c r hget

/-- Witness for C1 at a concrete state: a single-use, unexpired, valid
code held by inviter 1 is consumed by user 2; the row reaches
`use_count 1 = max_uses` and flips invalid, the edge is recorded, and
the inviter is rewarded. -/
theorem claim_C1_witness :
    ∃ st' : EngineState,
      consume_invite
        { codes := fun c =>
            if c = "CODE" then
              some { code := "CODE", created_by := 1, used_by := none,
                     used_at := none, expires_at := 100, is_valid := true,
                     use_count := 0, max_uses := 1 }
            else none
          scores := fun v => if v = 1 then some initial_trust_score else none
          relationships := [] } "CODE" 2 50 = .ok (1, st')
      ∧ (∃ row' : InviteCodeRow, st'.codes "CODE" = some row'
          ∧ row'.use_count = 1 ∧ row'.is_valid = false) := by
  have h := (claim_C1_consume_invite
      { codes := fun c =>
          if c = "CODE" then
            some { code := "CODE", created_by := 1, used_by := none,
                   used_at := none, expires_at := 100, is_valid := true,
                   use_count := 0, max_uses := 1 }
          else none
        scores := fun v => if v = 1 then some initial_trust_score else none
        relationships := [] } "CODE" 2 50).2.1
      { code := "CODE", created_by := 1, used_by := none,
        used_at := none, expires_at := 100, is_valid := true,
        use_count := 0, max_uses := 1 } (by simp)
  obtain ⟨inviter, st', hok⟩ := h.2 ⟨rfl, by decide, by decide⟩
  have h3 := (claim_C1_consume_invite _ "CODE" 2 50).2.2.1
      { code := "CODE", created_by := 1, used_by := none,
        used_at := none, expires_at := 100, is_valid := true,
        use_count := 0, max_uses := 1 } inviter st' (by simp) hok
  obtain ⟨hinv, ⟨row', hrow', hcnt, hmax, hvalid⟩, -, -⟩ := h3
  subst hinv
  exact ⟨st', hok, row', hrow', by rw [hcnt]; decide, hvalid.2 (by decide)⟩

/-- Claim C6: `create_invite` fails — inserting no code and leaving
`invites_sent` alone — exactly when the user's `invites_sent` is at or
above the quota for their current trust level (New 3, Basic 10, Trusted
50, Verified 200, counting all invites ever sent); the quota failure
carries the numeric quota; below quota (with a fresh candidate code) the
call succeeds and increments `invites_sent`. -/
theorem claim_C6_create_invite (st : EngineState) (user_id : Nat)
    (days_valid now : Int) (candidates : List String) (sc : TrustScore)
    (hsc : st.scores user_id = some sc)
    (hfresh : ∃ c ∈ candidates.take 10, st.codes c = none) :
    ((∃ e, create_invite st user_id days_valid now candidates = .error e) ↔
      sc.invites_sent ≥ max_invites_for sc.trust_level)
    ∧ (sc.invites_sent ≥ max_invites_for sc.trust_level →
        create_invite st user_id days_valid now candidates =
          .error (.maxInviteLimitReached (max_invites_for sc.trust_level))
        ∧ engine_step st user_id (.createInvite days_valid now candidates) = st)
    ∧ (∀ (row : InviteCodeRow) (st' : EngineState),
        create_invite st user_id days_valid now candidates = .ok (row, st') →
        st'.scores user_id = some { sc with invites_sent := sc.invites_sent + 1 }
        ∧ st'.codes row.code = some row ∧ st.codes row.code = none
        ∧ row.created_by = user_id)
    ∧ (max_invites_for .New = 3 ∧ max_invites_for .Basic = 10
        ∧ max_invites_for .Trusted = 50 ∧ max_invites_for .Verified = 200) := by
  have hgen : ∃ c, generate_unique_code st candidates = some c := by
    rcases hfresh with ⟨c, hc, hnone⟩
    cases hg : generate_unique_code st candidates with
    | some d => exact ⟨d, rfl⟩
    | none =>
      rw [generate_unique_code, List.find?_eq_none] at hg
      have := hg c hc
      simp [hnone] at this
  obtain ⟨c, hc⟩ := hgen
  refine ⟨⟨?_, ?_⟩, ?_, ?_, rfl, rfl, rfl, rfl⟩
  · rintro ⟨e, he⟩
    by_contra hq
    simp only [create_invite, hsc] at he
    rw [if_neg hq] at he
    simp [hc] at he
  · intro hq
    refine ⟨.maxInviteLimitReached (max_invites_for sc.trust_level), ?_⟩
    simp only [create_invite, hsc]
    rw [if_pos hq]
  · intro hq
    have herr : create_invite st user_id days_valid now candidates =
        .error (.maxInviteLimitReached (max_invites_for sc.trust_level)) := by
      simp only [create_invite, hsc]
      rw [if_pos hq]
    refine ⟨herr, ?_⟩
    simp only [engine_step]
    rw [herr]
  · intro row st' hok
    obtain ⟨sc0, hsc0, hlt, hsc', hother, hcode, hcother, hnone, -, hcreated, -⟩ :=
      create_invite_ok st user_id days_valid now candidates row st' hok
    rw [hsc] at hsc0
    cases hsc0
    exact ⟨hsc', hcode, hnone, hcreated⟩

/-- Witness for C6, the spec scenario: a `New` user's three creations
succeed (ending at `invites_sent = 3`) and the fourth fails carrying
quota 3. -/
theorem claim_C6_witness :
    (engine_run (init_state 0) 0
        [.createInvite 7 0 ["A"], .createInvite 7 0 ["B"], .createInvite 7 0 ["C"]]).scores 0 =
      some { initial_trust_score with invites_sent := 3 }
    ∧ create_invite
        (engine_run (init_state 0) 0
          [.createInvite 7 0 ["A"], .createInvite 7 0 ["B"], .createInvite 7 0 ["C"]])
        0 7 0 ["D"] = .error (.maxInviteLimitReached 3) := by
  refine ⟨by decide, ?_⟩
  have h := (claim_C6_create_invite
      (engine_run (init_state 0) 0
        [.createInvite 7 0 ["A"], .createInvite 7 0 ["B"], .createInvite 7 0 ["C"]])
      0 7 0 ["D"] { initial_trust_score with invites_sent := 3 }
      (by decide) ⟨"D", by decide, by decide⟩).2.1 (by decide)
  exact h.1

/-- Helper: `add_strike` never touches the invite counters. -/
theorem add_strike_invite_fields (s : TrustScore) (now : Int) :
    ((add_strike s now).1).invites_sent = s.invites_sent
    ∧ ((add_strike s now).1).successful_invites = s.successful_invites := by
  simp only [add_strike, recalculate_trust_level]
  split_ifs <;> exact ⟨rfl, rfl⟩

/-- Helper: `record_flag` never touches the invite counters. -/
theorem record_flag_invite_fields (s : TrustScore) (now : Int) :
    (record_flag s now).invites_sent = s.invites_sent
    ∧ (record_flag s now).successful_invites = s.successful_invites := by
  simp only [record_flag]
  split_ifs
  · exact add_strike_invite_fields _ now
  · exact ⟨rfl, rfl⟩

/-- Helper: `record_activity` never touches the invite counters. -/
theorem record_activity_invite_fields (s : TrustScore) (a : String) :
    (record_activity s a).invites_sent = s.invites_sent
    ∧ (record_activity s a).successful_invites = s.successful_invites := by
  simp only [record_activity, activity_counter_update, recalculate_trust_level]
  split_ifs <;> exact ⟨rfl, rfl⟩

/-- Both invite counters are non-negative in every stored trust row. -/
def invite_counters_nonneg (st : EngineState) : Prop :=
  ∀ v sc, st.scores v = some sc →
    0 ≤ sc.invites_sent ∧ 0 ≤ sc.successful_invites

/-- Helper: a per-user update that keeps the invite counters keeps them
non-negative. -/
theorem updateScore_nonneg (st : EngineState) (u : Nat) (f : TrustScore → TrustScore)
    (h : invite_counters_nonneg st)
    (hf : ∀ s : TrustScore, (f s).invites_sent = s.invites_sent
      ∧ (f s).successful_invites = s.successful_invites) :
    invite_counters_nonneg (updateScore st u f) := by
  intro v sc hv
  simp only [updateScore] at hv
  by_cases hvu : v = u
  · rw [if_pos hvu] at hv
    cases hs : st.scores v with
    | none => rw [hs] at hv; simp at hv
    | some sc0 =>
      rw [hs] at hv
      simp only [Option.map_some', Option.some.injEq] at hv
      subst hv
      have h0 := h v sc0 hs
      have hf0 := hf sc0
      omega
  · rw [if_neg hvu] at hv
    exact h v sc hv

/-- Helper: every engine step keeps the invite counters non-negative. -/
theorem engine_step_nonneg (st : EngineState) (u : Nat) (op : EngineOp)
    (h : invite_counters_nonneg st) :
    invite_counters_nonneg (engine_step st u op) := by
  cases op with
  | createInvite days_valid now candidates =>
    intro v sc hv
    simp only [engine_step] at hv
    cases hc : create_invite st u days_valid now candidates with
    | error e => rw [hc] at hv; exact h v sc hv
    | ok p =>
      rw [hc] at hv
      obtain ⟨sc0, hsc0, hlt, hsc', hother, -⟩ :=
        create_invite_ok st u days_valid now candidates p.1 p.2 (by rw [hc])
      by_cases hvu : v = u
      · subst hvu
        rw [hsc'] at hv
        cases hv
        have h0 := h v sc0 hsc0
        simp only
        omega
      · rw [hother v hvu] at hv
        exact h v sc hv
  | consumeInvite code new_user_id now =>
    intro v sc hv
    simp only [engine_step] at hv
    cases hc : consume_invite st code new_user_id now with
    | error e => rw [hc] at hv; exact h v sc hv
    | ok p =>
      rw [hc] at hv
      obtain ⟨row, hrow, -, -, -, -, -, -, -, hsc, hother, hnone⟩ :=
        consume_invite_ok st code new_user_id now p.1 p.2 (by rw [hc])
      by_cases hvu : v = row.created_by
      · subst hvu
        cases hs : st.scores row.created_by with
        | none =>
          rw [hnone hs] at hv
          simp at hv
        | some sc0 =>
          rw [hsc sc0 hs] at hv
          cases hv
          have h0 := h _ sc0 hs
          simp only
          omega
      · rw [hother v hvu] at hv
        exact h v sc hv
  | recordActivity a =>
    exact updateScore_nonneg st u _ h (fun s => record_activity_invite_fields s a)
  | addStrike now =>
    exact updateScore_nonneg st u _ h (fun s => add_strike_invite_fields s now)
  | recordFlag now =>
    exact updateScore_nonneg st u _ h (fun s => record_flag_invite_fields s now)
  | recalcLevel =>
    exact updateScore_nonneg st u _ h (fun s => ⟨rfl, rfl⟩)
  | setTrustLevel level =>
    exact updateScore_nonneg st u _ h (fun s => ⟨rfl, rfl⟩)

/-- Helper: runs preserve non-negative invite counters. -/
theorem engine_run_nonneg (u : Nat) (ops : List EngineOp) (st : EngineState)
    (h : invite_counters_nonneg st) :
    invite_counters_nonneg (engine_run st u ops) := by
  induction ops generalizing st with
  | nil => exact h
  | cons op rest ih => exact ih (engine_step st u op) (engine_step_nonneg st u op h)

/-- Claim C9 (amended): in every state reachable by engine operations
from a freshly initialized user, every stored `invites_sent` and
`successful_invites` is non-negative; and every successful
`create_invite` happens strictly below the quota of the level held at
creation time, leaving `invites_sent` at most that quota.  (The original
claim's bound against the *current* level is refuted by
the counterexample: a level change can leave `invites_sent` above the
new level's quota.) -/
theorem claim_C9_amended (u : Nat) (ops : List EngineOp) :
    (∀ v sc, (engine_run (init_state u) u ops).scores v = some sc →
      0 ≤ sc.invites_sent ∧ 0 ≤ sc.successful_invites)
    ∧ (∀ (st : EngineState) (user_id : Nat) (days_valid now : Int)
        (candidates : List String) (row : InviteCodeRow) (st' : EngineState)
        (sc : TrustScore),
        st.scores user_id = some sc →
        create_invite st user_id days_valid now candidates = .ok (row, st') →
        sc.invites_sent < max_invites_for sc.trust_level
        ∧ st'.scores user_id = some { sc with invites_sent := sc.invites_sent + 1 }
        ∧ sc.invites_sent + 1 ≤ max_invites_for sc.trust_level) := by
  constructor
  · refine engine_run_nonneg u ops (init_state u) ?_
    intro v sc hv
    simp only [init_state] at hv
    by_cases hvu : v = u
    · rw [if_pos hvu] at hv
      cases hv
      exact ⟨le_refl 0, le_refl 0⟩
    · rw [if_neg hvu] at hv
      simp at hv
  · intro st user_id days_valid now candidates row st' sc hsc hok
    obtain ⟨sc0, hsc0, hlt, hsc', -⟩ :=
      create_invite_ok st user_id days_valid now candidates row st' hok
    rw [hsc] at hsc0
    cases hsc0
    exact ⟨hlt, hsc', by omega⟩

/-- Witness for C9's amended theorem at concrete inputs: the empty run
from a fresh user, and a first successful creation from it. -/
theorem claim_C9_witness :
    ((0:Int) ≤ initial_trust_score.invites_sent
      ∧ (0:Int) ≤ initial_trust_score.successful_invites)
    ∧ initial_trust_score.invites_sent <
        max_invites_for initial_trust_score.trust_level :=
  ⟨(claim_C9_amended 0 []).1 0 initial_trust_score (by decide),
   ((claim_C9_amended 0 []).2 (init_state 0) 0 7 0 ["A"] _ _ initial_trust_score
      (by decide) rfl).1⟩

/-- Counterexample to C9 as stated: admin level changes are among the
engine operations, and after `Verified` is granted, four invites are
created, and the level is set back to `New`, the reachable state holds
`invites_sent = 4`, strictly above the `New` quota 3. -/
theorem claim_C9_counterexample :
    (engine_run (init_state 0) 0
        [.setTrustLevel .Verified,
         .createInvite 7 0 ["A"], .createInvite 7 0 ["B"],
         .createInvite 7 0 ["C"], .createInvite 7 0 ["D"],
         .setTrustLevel .New]).scores 0 =
      some { initial_trust_score with invites_sent := 4 }
    ∧ ¬ ((4:Int) ≤ max_invites_for TrustLevel.New) :=
  ⟨by decide, by decide⟩

end InviteTheorems

section FingerprintTheorems

/-- Helper: every risk bracket step is strictly positive. -/
theorem risk_increase_for_pos (account_count : Int) :
    0 < risk_increase_for account_count := by
  unfold risk_increase_for
  split_ifs <;> norm_num

/-- Claim C8 (amended): re-registering a known `(device, user)` pair
leaves the stored row — in particular `risk_score` — unchanged; a user
id not yet associated with an existing non-blocked device raises
`risk_score` by the bracket step of the prior account count (+5 for 0-2,
+15 for 3-5, +30 for 6-10, +50 for 11 or more) clamped to at most 100,
which is a strict increase exactly as long as the previous score is
below 100 (a device already at the cap stays at 100, refuting the
unconditional strict increase of the original claim). -/
theorem claim_C8_register_fingerprint (row : DeviceRow) (uid : Nat)
    (hnb : row.is_blocked = false) :
    (uid ∈ row.user_ids → register_fingerprint (some row) (some uid) = row)
    ∧ (uid ∉ row.user_ids →
        (register_fingerprint (some row) (some uid)).risk_score =
          min (row.risk_score + risk_increase_for row.account_count) 100
        ∧ (row.risk_score < 100 →
            row.risk_score < (register_fingerprint (some row) (some uid)).risk_score)
        ∧ (row.risk_score = 100 →
            (register_fingerprint (some row) (some uid)).risk_score = 100)
        ∧ (0 ≤ row.account_count ∧ row.account_count ≤ 2 →
            risk_increase_for row.account_count = 5)
        ∧ (3 ≤ row.account_count ∧ row.account_count ≤ 5 →
            risk_increase_for row.account_count = 15)
        ∧ (6 ≤ row.account_count ∧ row.account_count ≤ 10 →
            risk_increase_for row.account_count = 30)
        ∧ (11 ≤ row.account_count → risk_increase_for row.account_count = 50)) := by
  constructor
  · intro hmem
    simp [register_fingerprint, hnb, hmem]
  · intro hmem
    have hrisk : (register_fingerprint (some row) (some uid)).risk_score =
        min (row.risk_score + risk_increase_for row.account_count) 100 := by
      simp [register_fingerprint, hnb, hmem]
    have hpos := risk_increase_for_pos row.account_count
    refine ⟨hrisk, ?_, ?_, ?_, ?_, ?_, ?_⟩
    · intro hlt
      rw [hrisk]
      omega
    · intro hcap
      rw [hrisk]
      omega
    · intro hb; unfold risk_increase_for; split_ifs <;> first | rfl | omega
    · intro hb; unfold risk_increase_for; split_ifs <;> first | rfl | omega
    · intro hb; unfold risk_increase_for; split_ifs <;> first | rfl | omega
    · intro hb; unfold risk_increase_for; split_ifs <;> first | rfl | omega

/-- Witness for C8's amended theorem: a device with one prior account at
risk 0 gains a second distinct user and its risk rises strictly, by the
0-2 bracket step +5. -/
theorem claim_C8_witness :
    (register_fingerprint
        (some { user_ids := [1], account_count := 1, risk_score := 0, is_blocked := false })
        (some 2)).risk_score =
      min (0 + risk_increase_for 1) 100
    ∧ (0:Int) <
      (register_fingerprint
          (some { user_ids := [1], account_count := 1, risk_score := 0, is_blocked := false })
          (some 2)).risk_score := by
  have h := (claim_C8_register_fingerprint
      { user_ids := [1], account_count := 1, risk_score := 0, is_blocked := false }
      2 rfl).2 (by decide)
  exact ⟨h.1, h.2.1 (by decide)⟩

/-- Counterexample to C8 as stated: a non-blocked device already at the
risk cap (score 100, 12 associated accounts) gains a 13th distinct user
and its `risk_score` does not strictly increase — it stays at 100. -/
theorem claim_C8_counterexample :
    (13 ∉ ([1, 2, 3, 4, 5, 6, 7, 8, 9, 10, 11, 12] : List Nat))
    ∧ (register_fingerprint
        (some { user_ids := [1, 2, 3, 4, 5, 6, 7, 8, 9, 10, 11, 12],
                account_count := 12, risk_score := 100, is_blocked := false })
        (some 13)).risk_score = 100
    ∧ ¬ ((100:Int) <
        (register_fingerprint
            (some { user_ids := [1, 2, 3, 4, 5, 6, 7, 8, 9, 10, 11, 12],
                    account_count := 12, risk_score := 100, is_blocked := false })
            (some 13)).risk_score) :=
  ⟨by decide, by decide, by decide⟩

end FingerprintTheorems

section RateLimiterTheorems

/-- Helper: pointwise-equal counter reads (after `unwrap_or(0)`) give the
same check-loop result. -/
theorem check_windows_congr (reads reads' : RateWindow → CacheVal)
    (h : ∀ w, (reads w).unwrap_or_zero = (reads' w).unwrap_or_zero) :
    ∀ (cs : List (Nat × RateWindow)) (mr el : Nat),
      check_windows reads cs mr el = check_windows reads' cs mr el := by
  intro cs
  induction cs with
  | nil => intro mr el; rfl
  | cons p rest ih =>
    intro mr el
    obtain ⟨l, w⟩ := p
    simp only [check_windows, h w]
    split_ifs <;> first | rfl | exact ih _ _

/-- Helper: a successful `increment` loop ran every `INCR` successfully. -/
theorem increment_go_ok (c : IncrConn) :
    ∀ ws : List RateWindow, increment_go c ws = .ok () →
      ∀ w ∈ ws, c.incr w = .ok () := by
  intro ws
  induction ws with
  | nil => intro _ w hw; simp at hw
  | cons w0 rest ih =>
    intro h w hw
    simp only [increment_go] at h
    cases hi : c.incr w0 with
    | error e => rw [hi] at h; simp at h
    | ok v =>
      rw [hi] at h
      cases he : (if (c.reads w0).unwrap_or_zero = 0 then c.expire w0 else .ok ()) with
      | error e => rw [he] at h; simp at h
      | ok v' =>
        rw [he] at h
        rcases List.mem_cons.mp hw with hw0 | hrest
        · subst hw0; cases v; exact hi
        · exact ih h w hrest

/-- Helper: a successful `increment` loop ran every due `EXPIRE` (the
ones whose pre-increment read showed zero) successfully. -/
theorem increment_go_expire_ok (c : IncrConn) :
    ∀ ws : List RateWindow, increment_go c ws = .ok () →
      ∀ w ∈ ws, (c.reads w).unwrap_or_zero = 0 → c.expire w = .ok () := by
  intro ws
  induction ws with
  | nil => intro _ w hw; simp at hw
  | cons w0 rest ih =>
    intro h w hw hz
    simp only [increment_go] at h
    cases hi : c.incr w0 with
    | error e => rw [hi] at h; simp at h
    | ok v =>
      rw [hi] at h
      cases he : (if (c.reads w0).unwrap_or_zero = 0 then c.expire w0 else .ok ()) with
      | error e => rw [he] at h; simp at h
      | ok v' =>
        rw [he] at h
        rcases List.mem_cons.mp hw with hw0 | hrest
        · subst hw0
          rw [if_pos hz] at he
          cases v'
          exact he
        · exact ih h w hrest hz

/-- Claim C3 (amended): the rate limiter surfaces connection-establishment
failures as errors for every recognized action (in `check_rate_limit`,
`increment`, `check_ip_rate_limit` and `increment_ip`); `INCR` and due
`EXPIRE` command failures in the increment paths propagate — a successful
`increment` implies every `INCR` and every due `EXPIRE` succeeded, and in
`increment_ip` a failing `INCR`, or a failing `EXPIRE` when the
pre-increment read showed zero, yields an error; but a failing counter
*read* is conflated with a missing key — `unwrap_or(0)` maps both to
count 0 — so a failed read produces the same (possibly passing) check
result as an absent counter instead of an error. -/
theorem claim_C3_amended (limits : RateLimits) (action : String)
    (cs : List (Nat × RateWindow)) (ws : List RateWindow) (c : IncrConn)
    (limit : Nat) :
    (rate_limit_checks limits action = some cs →
      check_rate_limit limits action (.error ()) = .error ())
    ∧ (increment_windows action = some ws →
      increment action (.error ()) = .error ())
    ∧ check_ip_rate_limit limit (.error ()) = .error ()
    ∧ increment_ip (.error ()) = .error ()
    ∧ (increment_go c ws = .ok () → ∀ w ∈ ws, c.incr w = .ok ())
    ∧ (increment_go c ws = .ok () →
        ∀ w ∈ ws, (c.reads w).unwrap_or_zero = 0 → c.expire w = .ok ())
    ∧ (∀ (read : CacheVal) (incr_res expire_res : Except Unit Unit),
        increment_ip (.ok (read, incr_res, expire_res)) = .ok () →
        incr_res = .ok () ∧ (read.unwrap_or_zero = 0 → expire_res = .ok ()))
    ∧ (∀ (read : CacheVal) (expire_res : Except Unit Unit),
        increment_ip (.ok (read, .error (), expire_res)) = .error ())
    ∧ (∀ read : CacheVal, read.unwrap_or_zero = 0 →
        increment_ip (.ok (read, .ok (), .error ())) = .error ())
    ∧ CacheVal.err.unwrap_or_zero = CacheVal.nil.unwrap_or_zero
    ∧ (∀ reads reads' : RateWindow → CacheVal,
        (∀ w, (reads w).unwrap_or_zero = (reads' w).unwrap_or_zero) →
        check_rate_limit limits action (.ok reads) =
          check_rate_limit limits action (.ok reads')) := by
  refine ⟨?_, ?_, rfl, rfl, increment_go_ok c ws, increment_go_expire_ok c ws,
    ?_, ?_, ?_, rfl, ?_⟩
  · intro h
    unfold check_rate_limit
    rw [h]
    rfl
  · intro h
    unfold increment
    rw [h]
  · intro read incr_res expire_res h
    simp only [increment_ip] at h
    cases hi : incr_res with
    | error e => rw [hi] at h; simp at h
    | ok v =>
      rw [hi] at h
      refine ⟨by cases v; rfl, ?_⟩
      intro hz
      rw [if_pos hz] at h
      cases he : expire_res with
      | error e => rw [he] at h; simp at h
      | ok v' => cases v'; rfl
  · intro read expire_res
    rfl
  · intro read hz
    simp only [increment_ip]
    rw [if_pos hz]
  · intro reads reads' h
    unfold check_rate_limit
    cases hcs : rate_limit_checks limits action with
    | none => rfl
    | some checks =>
      simp only [check_rate_limit_with, check_windows_congr reads reads' h checks]

/-- Witness for C3's amended theorem at concrete inputs: for the `like`
action a dead connection errors out; an erroring read behaves exactly
like a missing key; and in `increment_ip` a failing `INCR`, or a failing
due `EXPIRE`, errors out. -/
theorem claim_C3_witness :
    (check_rate_limit
        { posts_per_hour := 1, posts_per_day := 5, follows_per_hour := 5,
          follows_per_day := 20, unfollows_per_day := 10, likes_per_hour := 30,
          comments_per_hour := 10, login_attempts_per_hour := 5,
          feed_requests_per_hour := 0, notifications_per_hour := 0,
          search_requests_per_hour := 0, media_requests_per_hour := 0,
          moderation_actions_per_hour := 0 }
        "like" (.error ()) = .error ())
    ∧ (check_rate_limit
        { posts_per_hour := 1, posts_per_day := 5, follows_per_hour := 5,
          follows_per_day := 20, unfollows_per_day := 10, likes_per_hour := 30,
          comments_per_hour := 10, login_attempts_per_hour := 5,
          feed_requests_per_hour := 0, notifications_per_hour := 0,
          search_requests_per_hour := 0, media_requests_per_hour := 0,
          moderation_actions_per_hour := 0 }
        "like" (.ok (fun _ => .err)) =
      check_rate_limit
        { posts_per_hour := 1, posts_per_day := 5, follows_per_hour := 5,
          follows_per_day := 20, unfollows_per_day := 10, likes_per_hour := 30,
          comments_per_hour := 10, login_attempts_per_hour := 5,
          feed_requests_per_hour := 0, notifications_per_hour := 0,
          search_requests_per_hour := 0, media_requests_per_hour := 0,
          moderation_actions_per_hour := 0 }
        "like" (.ok (fun _ => .nil)))
    ∧ increment_ip (.ok (.nil, .error (), .ok ())) = .error ()
    ∧ increment_ip (.ok (.nil, .ok (), .error ())) = .error () := by
  obtain ⟨h1, -, -, -, -, -, -, h8, h9, -, h11⟩ := claim_C3_amended
    { posts_per_hour := 1, posts_per_day := 5, follows_per_hour := 5,
      follows_per_day := 20, unfollows_per_day := 10, likes_per_hour := 30,
      comments_per_hour := 10, login_attempts_per_hour := 5,
      feed_requests_per_hour := 0, notifications_per_hour := 0,
      search_requests_per_hour := 0, media_requests_per_hour := 0,
      moderation_actions_per_hour := 0 }
    "like" [(30, .Hour)] [] ⟨fun _ => .nil, fun _ => .ok (), fun _ => .ok ()⟩ 0
  exact ⟨h1 rfl, h11 (fun _ => .err) (fun _ => .nil) (fun _ => rfl),
    h8 .nil (.ok ()), h9 .nil rfl⟩

/-- Counterexample to C3 as stated: with a live connection whose counter
read *fails*, `check_rate_limit` does not surface an error — the failed
read is `unwrap_or(0)` to count 0, exactly as a missing key would be,
and the quota check passes with the full quota remaining. -/
theorem claim_C3_counterexample :
    check_rate_limit
        { posts_per_hour := 1, posts_per_day := 5, follows_per_hour := 5,
          follows_per_day := 20, unfollows_per_day := 10, likes_per_hour := 30,
          comments_per_hour := 10, login_attempts_per_hour := 5,
          feed_requests_per_hour := 0, notifications_per_hour := 0,
          search_requests_per_hour := 0, media_requests_per_hour := 0,
          moderation_actions_per_hour := 0 }
        "like" (.ok (fun _ => .err)) =
      .ok { limited := false, limit := 30, remaining := 30 } := by
  rfl

/-- Spec-side (claim C2's words): the smallest `quota - count` over the
checked windows (`u32::MAX` for an empty list; the claim only concerns
the nonempty check lists of recognized actions). -/
def min_remaining (count : RateWindow → Nat) : List (Nat × RateWindow) → Nat
  | [] => U32_MAX
  | p :: rest => min (p.1 - count p.2) (min_remaining count rest)

/-- Spec-side (claim C2's words): the quota of the first window attaining
the smallest remaining figure. -/
def tightest_limit (count : RateWindow → Nat) : List (Nat × RateWindow) → Nat
  | [] => 0
  | p :: rest =>
    if p.1 - count p.2 ≤ min_remaining count rest then p.1
    else tightest_limit count rest

/-- Spec-side rendering of claim C2: deny on the first window whose count
is at or above its quota, reporting that window's quota and zero
remaining; otherwise report the smallest remaining over the checked
windows and the quota of the window attaining it. -/
def spec_rate_check (count : RateWindow → Nat) (cs : List (Nat × RateWindow)) :
    RateLimitInfo :=
  match cs.find? (fun p => decide (count p.2 ≥ p.1)) with
  | some p => { limited := true, limit := p.1, remaining := 0 }
  | none =>
    { limited := false, limit := tightest_limit count cs,
      remaining := min_remaining count cs }

/-- Helper: the check loop, from any accumulator, is the spec-side scan
merged with the accumulator. -/
theorem check_windows_eq_spec (reads : RateWindow → CacheVal) :
    ∀ (cs : List (Nat × RateWindow)) (mr el : Nat),
      (∀ p ∈ cs, p.1 < U32_MAX) → mr ≤ U32_MAX →
      check_windows reads cs mr el =
        match cs.find? (fun p => decide ((reads p.2).unwrap_or_zero ≥ p.1)) with
        | some p => { limited := true, limit := p.1, remaining := 0 }
        | none =>
          if min_remaining (fun w => (reads w).unwrap_or_zero) cs < mr then
            { limited := false,
              limit := tightest_limit (fun w => (reads w).unwrap_or_zero) cs,
              remaining := min_remaining (fun w => (reads w).unwrap_or_zero) cs }
          else { limited := false, limit := el, remaining := mr } := by
  intro cs
  induction cs with
  | nil =>
    intro mr el hb hmr
    simp only [check_windows, List.find?_nil, min_remaining]
    rw [if_neg (by omega)]
  | cons p rest ih =>
    intro mr el hb hmr
    obtain ⟨l, w⟩ := p
    have hl : l < U32_MAX := hb (l, w) (List.mem_cons_self _ _)
    have hrest : ∀ q ∈ rest, q.1 < U32_MAX :=
      fun q hq => hb q (List.mem_cons_of_mem _ hq)
    by_cases hc : (reads w).unwrap_or_zero ≥ l
    · have hfind : ((l, w) :: rest).find?
          (fun p => decide ((reads p.2).unwrap_or_zero ≥ p.1)) = some (l, w) :=
        List.find?_cons_of_pos _ (by simpa using hc)
      rw [hfind]
      simp only [check_windows]
      rw [if_pos hc]
    · have hfind : ((l, w) :: rest).find?
          (fun p => decide ((reads p.2).unwrap_or_zero ≥ p.1)) =
            rest.find? (fun p => decide ((reads p.2).unwrap_or_zero ≥ p.1)) :=
        List.find?_cons_of_neg _ (by simpa using hc)
      rw [hfind]
      have hstep : check_windows reads ((l, w) :: rest) mr el =
          check_windows reads rest
            (if l - (reads w).unwrap_or_zero < mr then l - (reads w).unwrap_or_zero else mr)
            (if l - (reads w).unwrap_or_zero < mr then l else el) := by
        simp only [check_windows]
        rw [if_neg hc]
      rw [hstep,
        ih (if l - (reads w).unwrap_or_zero < mr then l - (reads w).unwrap_or_zero else mr)
          (if l - (reads w).unwrap_or_zero < mr then l else el) hrest
          (by split_ifs <;> omega)]
      cases hf : rest.find? (fun p => decide ((reads p.2).unwrap_or_zero ≥ p.1)) with
      | some q => rfl
      | none =>
        simp only [min_remaining, tightest_limit]
        split_ifs <;>
          simp only [RateLimitInfo.mk.injEq, true_and] <;>
          first | rfl | omega | (constructor <;> omega)

/-- Helper: over a nonempty bounded check list the smallest remaining is
below `u32::MAX`, so it always displaces the loop's initial accumulator. -/
theorem min_remaining_lt (count : RateWindow → Nat)
    (cs : List (Nat × RateWindow)) (hne : cs ≠ [])
    (hb : ∀ p ∈ cs, p.1 < U32_MAX) :
    min_remaining count cs < U32_MAX := by
  cases cs with
  | nil => exact absurd rfl hne
  | cons p rest =>
    have h1 : p.1 < U32_MAX := hb p (List.mem_cons_self _ _)
    have h2 : p.1 - count p.2 ≤ p.1 := Nat.sub_le _ _
    simp only [min_remaining]
    omega

/-- Claim C2: for every recognized action and (per-trust-level) quota
table, `check_rate_limit` walks the action's `(quota, window)` pairs in
their fixed order treating a missing counter as 0; it denies at the first
window whose count is at or above quota, reporting that window's quota
and zero remaining and consulting no further window; when all windows
pass it reports the smallest `quota - count` over the checked windows and
the quota of the window attaining it.  (Quotas are `u32` table values,
all below `u32::MAX`.) -/
theorem claim_C2_check_rate_limit (limits : RateLimits) (action : String)
    (cs : List (Nat × RateWindow)) (reads : RateWindow → CacheVal)
    (hcs : rate_limit_checks limits action = some cs)
    (hbound : ∀ p ∈ cs, p.1 < U32_MAX) :
    check_rate_limit limits action (.ok reads) =
      .ok (spec_rate_check (fun w => (reads w).unwrap_or_zero) cs) := by
  unfold check_rate_limit
  rw [hcs]
  simp only [check_rate_limit_with]
  rw [check_windows_eq_spec reads cs U32_MAX 0 hbound (le_refl _)]
  unfold spec_rate_check
  cases hf : cs.find? (fun p => decide ((reads p.2).unwrap_or_zero ≥ p.1)) with
  | some q => rfl
  | none =>
    by_cases hmin : min_remaining (fun w => (reads w).unwrap_or_zero) cs < U32_MAX
    · rw [if_pos hmin]
    · rw [if_neg hmin]
      cases cs with
      | nil => rfl
      | cons p rest =>
        exfalso
        exact hmin (min_remaining_lt _ (p :: rest) (by simp) hbound)

/-- Witness for C2 at concrete inputs: for `post` under quotas (1/hour,
5/day), an hourly count of 1 denies citing the hourly quota, and missing
counters pass with the tightest remaining figure (the hourly window). -/
theorem claim_C2_witness :
    check_rate_limit
        { posts_per_hour := 1, posts_per_day := 5, follows_per_hour := 5,
          follows_per_day := 20, unfollows_per_day := 10, likes_per_hour := 30,
          comments_per_hour := 10, login_attempts_per_hour := 5,
          feed_requests_per_hour := 0, notifications_per_hour := 0,
          search_requests_per_hour := 0, media_requests_per_hour := 0,
          moderation_actions_per_hour := 0 }
        "post" (.ok (fun w => match w with | .Hour => .val 1 | .Day => .nil)) =
      .ok { limited := true, limit := 1, remaining := 0 }
    ∧ check_rate_limit
        { posts_per_hour := 1, posts_per_day := 5, follows_per_hour := 5,
          follows_per_day := 20, unfollows_per_day := 10, likes_per_hour := 30,
          comments_per_hour := 10, login_attempts_per_hour := 5,
          feed_requests_per_hour := 0, notifications_per_hour := 0,
          search_requests_per_hour := 0, media_requests_per_hour := 0,
          moderation_actions_per_hour := 0 }
        "post" (.ok (fun _ => .nil)) =
      .ok { limited := false, limit := 1, remaining := 1 } := by
  constructor
  · rw [claim_C2_check_rate_limit
      { posts_per_hour := 1, posts_per_day := 5, follows_per_hour := 5,
        follows_per_day := 20, unfollows_per_day := 10, likes_per_hour := 30,
        comments_per_hour := 10, login_attempts_per_hour := 5,
        feed_requests_per_hour := 0, notifications_per_hour := 0,
        search_requests_per_hour := 0, media_requests_per_hour := 0,
        moderation_actions_per_hour := 0 }
      "post" [(1, .Hour), (5, .Day)]
      (fun w => match w with | .Hour => .val 1 | .Day => .nil) rfl (by decide)]
    rfl
  · rw [claim_C2_check_rate_limit
      { posts_per_hour := 1, posts_per_day := 5, follows_per_hour := 5,
        follows_per_day := 20, unfollows_per_day := 10, likes_per_hour := 30,
        comments_per_hour := 10, login_attempts_per_hour := 5,
        feed_requests_per_hour := 0, notifications_per_hour := 0,
        search_requests_per_hour := 0, media_requests_per_hour := 0,
        moderation_actions_per_hour := 0 }
      "post" [(1, .Hour), (5, .Day)] (fun _ => .nil) rfl (by decide)]
    rfl

end RateLimiterTheorems

end Lumine
